import Mathlib

/-!
Shallow embedding of the web3auth demo component (src/src/App.js).

The component keeps five pieces of React state:
  web3auth (the auth session handle), provider (the connected wallet
  provider), contract (the deployed contract reference), message (the
  string mirrored to the UI) and newMessage (the pending input).

Each event handler is embedded as a pure transition on a World that
bundles the component state, a model of the chain (storage of deployed
contracts) and the console log.  External outcomes that the code awaits
(the provider returned by connectTo, success or failure of a deployment,
the data logged by getUserInfo and checkBalance) enter as parameters of
the transition, exactly at the points where App.js awaits them.
-/

namespace Web3AuthApp

/-- Opaque handle to the constructed auth client (Web3AuthNoModal).
App.js builds it from the client id and the web3AuthNetwork string. -/
structure Session where
  clientId : String
  network : String
  deriving DecidableEq, Repr

/-- Opaque handle to the connected wallet transport
(ethers.BrowserProvider wrapping the web3auth provider). -/
structure Provider where
  token : Nat
  deriving DecidableEq, Repr

/-- Model of the chain: an association list from contract address to the
stored string (newest binding first), and the next fresh address. -/
structure ChainState where
  storage : List (Nat × String)
  nextAddr : Nat
  deriving DecidableEq, Repr

/-- The five useState fields of the App component, in source order. -/
structure AppState where
  web3auth : Option Session
  provider : Option Provider
  contract : Option Nat
  message : String
  newMessage : String
  deriving DecidableEq, Repr

/-- Component state together with the chain and the console output. -/
structure World where
  app : AppState
  chain : ChainState
  log : List String
  deriving DecidableEq, Repr

/-- Does the pattern match at the head of the text? -/
def matchAt : List Char → List Char → Bool
  | [], _ => true
  | _ :: _, [] => false
  | a :: pa, b :: pb => a == b && matchAt pa pb

/-- Does the pattern occur anywhere in the text? -/
def hasSub (pat : List Char) : List Char → Bool
  | [] => matchAt pat []
  | b :: bs => matchAt pat (b :: bs) || hasSub pat bs

/-- error.message.includes(pat) of App.js line 123. -/
def strIncl (s pat : String) : Bool := hasSub pat.data s.data

/-- The string a contract at the given address currently stores
(contract.message() in App.js line 134). -/
def chainGet (ch : ChainState) (a : Nat) : String :=
  (List.lookup a ch.storage).getD ""

/-- Outcome of factory.deploy awaited in deployContract. -/
inductive DeployOutcome
  | ok
  | err (msg : String)
  deriving DecidableEq, Repr

/-- Outcome of the signer, network and balance queries awaited in
checkBalance. -/
inductive BalanceOutcome
  | ok (address network chainId balance : String)
  | err (msg : String)
  deriving DecidableEq, Repr

/-- The init effect (App.js lines 35-74): constructs the auth client and
stores it with setWeb3auth. -/
def initSession (s : Session) (w : World) : World :=
  { w with app := { w.app with web3auth := some s } }

/-- login (App.js lines 76-89): guarded on web3auth; on success stores a
BrowserProvider built from the provider connectTo returned. -/
def login (p : Nat) (w : World) : World :=
  match w.app.web3auth with
  | none => { w with log := w.log ++ ["web3auth not initialized yet"] }
  | some _ => { w with app := { w.app with provider := some ⟨p⟩ } }

/-- getUserInfo (App.js lines 91-98): guarded on web3auth; logs the user
profile returned by the session. -/
def getUserInfo (u : String) (w : World) : World :=
  match w.app.web3auth with
  | none => { w with log := w.log ++ ["web3auth not initialized yet"] }
  | some _ => { w with log := w.log ++ [u] }

/-- logout (App.js lines 100-107): guarded on web3auth; clears the
provider to null. -/
def logout (w : World) : World :=
  match w.app.web3auth with
  | none => { w with log := w.log ++ ["web3auth not initialized yet"] }
  | some _ => { w with app := { w.app with provider := none } }

/-- The console lines the deployContract catch block produces: the
error is logged, with an extra hint when the message mentions
insufficient funds (App.js lines 121-125). -/
def deployErrLog (msg : String) : List String :=
  if strIncl msg "insufficient funds" then
    ["Error deploying contract: " ++ msg,
     "Please make sure you have enough test ETH in your wallet."]
  else ["Error deploying contract: " ++ msg]

/-- deployContract (App.js lines 109-127): guarded on provider.  On
success a fresh contract holding the constructor argument
"Hello World!" appears on chain, its reference is stored, and its
address is logged.  On error the catch block logs a diagnostic and the
state is left as it was. -/
def deployContract (o : DeployOutcome) (w : World) : World :=
  match w.app.provider with
  | none => { w with log := w.log ++ ["provider not initialized yet"] }
  | some _ =>
    match o with
    | DeployOutcome.ok =>
        let addr := w.chain.nextAddr
        { app := { w.app with contract := some addr },
          chain := { storage := (addr, "Hello World!") :: w.chain.storage,
                     nextAddr := addr + 1 },
          log := w.log ++ ["Contract deployed to: " ++ toString addr] }
    | DeployOutcome.err msg =>
        { w with log := w.log ++ deployErrLog msg }

/-- readContract (App.js lines 129-136): guarded on contract; mirrors
the stored string to the message state. -/
def readContract (w : World) : World :=
  match w.app.contract with
  | none => { w with log := w.log ++ ["Contract not deployed yet"] }
  | some c => { w with app := { w.app with message := chainGet w.chain c } }

/-- writeContract (App.js lines 138-147): guarded on contract; submits
newMessage as the new stored string, logs, then clears newMessage. -/
def writeContract (w : World) : World :=
  match w.app.contract with
  | none => { w with log := w.log ++ ["Contract not deployed yet"] }
  | some c =>
      { app := { w.app with newMessage := "" },
        chain := { w.chain with storage := (c, w.app.newMessage) :: w.chain.storage },
        log := w.log ++ ["Message updated"] }

/-- The console lines the checkBalance try block produces: signer
address, network and balance, or the caught error (App.js lines
151-158). -/
def balanceLog : BalanceOutcome → List String
  | BalanceOutcome.ok address network chainId balance =>
      ["Wallet address: " ++ address,
       "Connected to network: " ++ network ++ " Chain ID: " ++ chainId,
       "Balance: " ++ balance ++ " ETH"]
  | BalanceOutcome.err msg => ["Error checking balance: " ++ msg]

/-- checkBalance (App.js lines 149-159): guarded on provider; logs the
signer address, the network and the balance, or the caught error.
Purely observational: no state field changes. -/
def checkBalance (o : BalanceOutcome) (w : World) : World :=
  match w.app.provider with
  | none => { w with log := w.log ++ ["Provider not initialized yet"] }
  | some _ => { w with log := w.log ++ balanceLog o }

/-- The onChange handler of the text input (App.js line 181): stores the
typed text in newMessage. -/
def editNewMessage (t : String) (w : World) : World :=
  { w with app := { w.app with newMessage := t } }

/-- One user-visible operation of the component, with the external data
it awaits. -/
inductive Action
  | initDone (s : Session)
  | loginA (p : Nat)
  | userInfoA (u : String)
  | logoutA
  | deployA (o : DeployOutcome)
  | readA
  | writeA
  | balanceA (o : BalanceOutcome)
  | editA (t : String)
  deriving DecidableEq, Repr

/-- Dispatch an action to its handler. -/
def stepA : Action → World → World
  | Action.initDone s => initSession s
  | Action.loginA p => login p
  | Action.userInfoA u => getUserInfo u
  | Action.logoutA => logout
  | Action.deployA o => deployContract o
  | Action.readA => readContract
  | Action.writeA => writeContract
  | Action.balanceA o => checkBalance o
  | Action.editA t => editNewMessage t

/-- The state at page load: every handle null, both strings empty. -/
def w0 : World :=
  { app := { web3auth := none, provider := none, contract := none,
             message := "", newMessage := "" },
    chain := { storage := [], nextAddr := 0 },
    log := [] }

/-- Run a list of actions from a world. -/
def runActs (acts : List Action) (w : World) : World :=
  acts.foldl (fun x a => stepA a x) w

/-- First half of the spec invariant: ConnectedProvider exists only if
Session exists. -/
def inv1 (w : World) : Bool := w.app.provider.isNone || w.app.web3auth.isSome

/-- Second half of the spec invariant: DeployedContract exists only if
ConnectedProvider exists. -/
def inv2 (w : World) : Bool := w.app.contract.isNone || w.app.provider.isSome

/-- The full spec invariant. -/
def invB (w : World) : Bool := inv1 w && inv2 w

/-- The session the init effect of App.js constructs. -/
def s0 : Session :=
  { clientId := "ID from Web3Auth Dashboard", network := "sapphire_devnet" }

/-- init, login, deploy: the straight-line happy path. -/
def traceGood : List Action :=
  [Action.initDone s0, Action.loginA 0, Action.deployA DeployOutcome.ok]

/-- The state after the happy path: all three handles present. -/
def wGood : World := runActs traceGood w0

/-- The state after a logout following the happy path. -/
def wBad : World := stepA Action.logoutA wGood

/-- A deployed state reached by init, login 7, deploy. -/
def wFull : World :=
  runActs [Action.initDone s0, Action.loginA 7, Action.deployA DeployOutcome.ok] w0

/-- wFull with "hi" typed into the input box. -/
def wC2 : World := editNewMessage "hi" wFull

/-- The state right after init: session present, nothing else. -/
def wPre : World := stepA (Action.initDone s0) w0

/-- The state after init and login: session and provider present. -/
def wConn : World := runActs [Action.initDone s0, Action.loginA 7] w0

/-- The actions that can change the deployed-contract handle or the
chain: only deploy and write do. -/
def touchesStore : Action → Bool
  | Action.deployA _ => true
  | Action.writeA => true
  | _ => false

/-- An action that neither deploys nor writes leaves the contract
handle and the chain untouched. -/
theorem step_frame (a : Action) (w : World) (h : touchesStore a = false) :
    (stepA a w).app.contract = w.app.contract ∧ (stepA a w).chain = w.chain := by
  obtain ⟨⟨wa, pr, ct, m, nm⟩, ch, lg⟩ := w
  rcases a with s | p | u | - | o | - | - | ob | t
  all_goals try cases o
  all_goals try cases ob
  all_goals cases wa
  all_goals cases pr
  all_goals cases ct
  all_goals simp_all [stepA, touchesStore, initSession, login, getUserInfo,
    logout, deployContract, deployErrLog, readContract, writeContract,
    checkBalance, balanceLog, editNewMessage]

/-- A run of actions that neither deploy nor write leaves the contract
handle and the chain untouched. -/
theorem runActs_frame (L : List Action) (w : World)
    (h : ∀ a ∈ L, touchesStore a = false) :
    (runActs L w).app.contract = w.app.contract ∧ (runActs L w).chain = w.chain := by
  induction L generalizing w with
  | nil => exact ⟨rfl, rfl⟩
  | cons a L ih =>
      have h1 := step_frame a w (h a (List.mem_cons_self a L))
      have h2 := ih (stepA a w) (fun b hb => h b (List.mem_cons_of_mem a hb))
      exact ⟨h2.1.trans h1.1, h2.2.trans h1.2⟩

/-- Reading with a deployed contract mirrors the chain storage into the
message field. -/
theorem readContract_some (w : World) (c : Nat) (hc : w.app.contract = some c) :
    readContract w = { w with app := { w.app with message := chainGet w.chain c } } := by
  unfold readContract
  rw [hc]

/-- Writing with a deployed contract stores the pending input on chain,
logs, and clears the pending input. -/
theorem writeContract_some (w : World) (c : Nat) (hc : w.app.contract = some c) :
    writeContract w =
      { app := { w.app with newMessage := "" },
        chain := { w.chain with storage := (c, w.app.newMessage) :: w.chain.storage },
        log := w.log ++ ["Message updated"] } := by
  unfold writeContract
  rw [hc]

/-- Every action preserves the first half of the invariant. -/
theorem inv1_step (a : Action) (w : World) (h : inv1 w = true) :
    inv1 (stepA a w) = true := by
  obtain ⟨⟨wa, pr, ct, m, nm⟩, ch, lg⟩ := w
  rcases a with s | p | u | - | o | - | - | ob | t
  all_goals try cases o
  all_goals try cases ob
  all_goals cases wa
  all_goals cases pr
  all_goals cases ct
  all_goals simp_all [stepA, inv1, initSession, login, getUserInfo,
    logout, deployContract, deployErrLog, readContract, writeContract,
    checkBalance, balanceLog, editNewMessage]

/-- Every action other than logout preserves the second half of the
invariant. -/
theorem inv2_step (a : Action) (w : World) (ha : a ≠ Action.logoutA)
    (h : inv2 w = true) : inv2 (stepA a w) = true := by
  obtain ⟨⟨wa, pr, ct, m, nm⟩, ch, lg⟩ := w
  rcases a with s | p | u | - | o | - | - | ob | t
  all_goals try cases o
  all_goals try cases ob
  all_goals cases wa
  all_goals cases pr
  all_goals cases ct
  all_goals simp_all [stepA, inv2, initSession, login, getUserInfo,
    logout, deployContract, deployErrLog, readContract, writeContract,
    checkBalance, balanceLog, editNewMessage]

/-- The first half of the invariant holds after any run from a state
satisfying it. -/
theorem inv1_run (L : List Action) (w : World) (h : inv1 w = true) :
    inv1 (runActs L w) = true := by
  induction L generalizing w with
  | nil => exact h
  | cons a L ih => exact ih (stepA a w) (inv1_step a w h)

/-- C1: the claimed invariant fails on the code.  The happy path init,
login, deploy reaches a state satisfying both halves, but the logout
that follows it clears the provider while keeping the contract handle,
so the resulting state, reachable from the page-load state, violates
DeployedContract-only-if-ConnectedProvider: logout does not preserve
the invariant. -/
theorem C1_counterexample :
    invB wGood = true ∧
    wBad = stepA Action.logoutA wGood ∧
    wBad = runActs (traceGood ++ [Action.logoutA]) w0 ∧
    invB wBad = false := by
  exact ⟨rfl, rfl, rfl, rfl⟩

/-- C1 (amended): every operation preserves the first half of the
invariant (ConnectedProvider only if Session), which therefore holds in
every reachable state; every operation other than logout preserves the
full invariant. -/
theorem C1_inv_amended (a : Action) (w : World) (L : List Action) :
    (inv1 w = true → inv1 (stepA a w) = true) ∧
    (a ≠ Action.logoutA → inv1 w = true → inv2 w = true →
        inv1 (stepA a w) = true ∧ inv2 (stepA a w) = true) ∧
    inv1 (runActs L w0) = true :=
  ⟨inv1_step a w,
   fun ha h1 h2 => ⟨inv1_step a w h1, inv2_step a w ha h2⟩,
   inv1_run L w0 rfl⟩

/-- Witness for the amended C1 at the read action on the deployed
state and a concrete trace ending in logout. -/
theorem C1_inv_amended_witness :
    inv1 (stepA Action.readA wGood) = true ∧
    (inv1 (stepA Action.readA wGood) = true ∧
        inv2 (stepA Action.readA wGood) = true) ∧
    inv1 (runActs [Action.initDone s0, Action.loginA 0, Action.logoutA] w0) = true := by
  have h := C1_inv_amended Action.readA wGood
    [Action.initDone s0, Action.loginA 0, Action.logoutA]
  exact ⟨h.1 rfl, h.2.1 (by decide) rfl rfl, h.2.2⟩

/-- C2: with a contract deployed and the pending input holding X,
writeContract stores X on chain; a readContract done right after, or
after any further actions that neither deploy nor write, mirrors X into
the message field. -/
theorem C2_write_then_read (w : World) (c : Nat) (X : String)
    (hc : w.app.contract = some c) (hx : w.app.newMessage = X) :
    chainGet (writeContract w).chain c = X ∧
    (readContract (writeContract w)).app.message = X ∧
    (∀ L : List Action, (∀ a ∈ L, touchesStore a = false) →
      (readContract (runActs L (writeContract w))).app.message = X) := by
  have hw := writeContract_some w c hc
  have hcon : (writeContract w).app.contract = some c := by rw [hw]; exact hc
  have hg : chainGet (writeContract w).chain c = X := by
    rw [hw]
    simp [chainGet, List.lookup, hx]
  refine ⟨hg, ?_, ?_⟩
  · rw [readContract_some (writeContract w) c hcon]
    exact hg
  · intro L hL
    have hf := runActs_frame L (writeContract w) hL
    rw [readContract_some (runActs L (writeContract w)) c (hf.1.trans hcon)]
    show chainGet (runActs L (writeContract w)).chain c = X
    rw [hf.2]
    exact hg

/-- Witness for C2: the deployed state with "hi" typed into the input;
the subsequent run is a logout. -/
theorem C2_witness :
    chainGet (writeContract wC2).chain 0 = "hi" ∧
    (readContract (writeContract wC2)).app.message = "hi" ∧
    (readContract (runActs [Action.logoutA] (writeContract wC2))).app.message = "hi" := by
  have h := C2_write_then_read wC2 0 "hi" rfl rfl
  exact ⟨h.1, h.2.1, h.2.2 [Action.logoutA] (by decide)⟩

/-- C3: with a provider connected, a successful deployContract stores a
fresh contract whose chain storage holds "Hello World!", and a
readContract done before any write mirrors "Hello World!" into the
message field. -/
theorem C3_deploy_then_read (w : World) (p : Provider)
    (hp : w.app.provider = some p) :
    (deployContract DeployOutcome.ok w).app.contract = some w.chain.nextAddr ∧
    chainGet (deployContract DeployOutcome.ok w).chain w.chain.nextAddr = "Hello World!" ∧
    (readContract (deployContract DeployOutcome.ok w)).app.message = "Hello World!" := by
  obtain ⟨⟨wa, pr, ct, m, nm⟩, ⟨st, na⟩, lg⟩ := w
  have hp' : pr = some p := hp
  subst hp'
  refine ⟨rfl, ?_, ?_⟩ <;>
    simp [deployContract, readContract, chainGet, List.lookup]

/-- Witness for C3 at the logged-in state. -/
theorem C3_witness :
    (deployContract DeployOutcome.ok wConn).app.contract = some wConn.chain.nextAddr ∧
    chainGet (deployContract DeployOutcome.ok wConn).chain wConn.chain.nextAddr = "Hello World!" ∧
    (readContract (deployContract DeployOutcome.ok wConn)).app.message = "Hello World!" :=
  C3_deploy_then_read wConn ⟨7⟩ rfl

/-- C4: with the session present, logout clears the provider, keeps
the session, makes any deployContract a pure log-and-return again, and
undoes a login done from a pre-login state exactly. -/
theorem C4_logout_resets (w : World) (s : Session)
    (hs : w.app.web3auth = some s) :
    (logout w).app.provider = none ∧
    (logout w).app.web3auth = some s ∧
    (∀ o : DeployOutcome, deployContract o (logout w) =
        { logout w with log := (logout w).log ++ ["provider not initialized yet"] }) ∧
    (∀ p : Nat, w.app.provider = none → logout (login p w) = w) := by
  obtain ⟨⟨wa, pr, ct, m, nm⟩, ch, lg⟩ := w
  have hs' : wa = some s := hs
  subst hs'
  refine ⟨rfl, rfl, fun o => rfl, fun p hp => ?_⟩
  have hp' : pr = none := hp
  subst hp'
  rfl

/-- Witness for C4 at the state right after init. -/
theorem C4_witness :
    (logout wPre).app.provider = none ∧
    deployContract DeployOutcome.ok (logout wPre) =
      { logout wPre with log := (logout wPre).log ++ ["provider not initialized yet"] } ∧
    logout (login 3 wPre) = wPre := by
  have h := C4_logout_resets wPre s0 rfl
  exact ⟨h.1, h.2.2.1 DeployOutcome.ok, h.2.2.2 3 rfl⟩

/-- C5: with the session missing, login only appends its diagnostic to
the console; the component state and the chain are unchanged. -/
theorem C5_login_noop (w : World) (p : Nat) (h : w.app.web3auth = none) :
    login p w = { w with log := w.log ++ ["web3auth not initialized yet"] } := by
  obtain ⟨⟨wa, pr, ct, m, nm⟩, ch, lg⟩ := w
  have h' : wa = none := h
  subst h'
  rfl

/-- Witness for C5 at the page-load state. -/
theorem C5_witness :
    login 3 w0 = { w0 with log := w0.log ++ ["web3auth not initialized yet"] } :=
  C5_login_noop w0 3 rfl

/-- C6: with the provider missing, deployContract only appends its
diagnostic to the console, whatever the deployment outcome would have
been; no contract is stored and nothing else changes. -/
theorem C6_deploy_noop (w : World) (o : DeployOutcome)
    (h : w.app.provider = none) :
    deployContract o w = { w with log := w.log ++ ["provider not initialized yet"] } := by
  obtain ⟨⟨wa, pr, ct, m, nm⟩, ch, lg⟩ := w
  have h' : pr = none := h
  subst h'
  rfl

/-- Witness for C6 at the state right after init. -/
theorem C6_witness :
    deployContract DeployOutcome.ok wPre =
      { wPre with log := wPre.log ++ ["provider not initialized yet"] } :=
  C6_deploy_noop wPre DeployOutcome.ok rfl

/-- C7: with the contract missing, readContract and writeContract each
only append their diagnostic to the console; message, newMessage, the
handles and the chain are unchanged and no transaction reaches the
chain. -/
theorem C7_read_write_noop (w : World) (h : w.app.contract = none) :
    readContract w = { w with log := w.log ++ ["Contract not deployed yet"] } ∧
    writeContract w = { w with log := w.log ++ ["Contract not deployed yet"] } := by
  obtain ⟨⟨wa, pr, ct, m, nm⟩, ch, lg⟩ := w
  have h' : ct = none := h
  subst h'
  exact ⟨rfl, rfl⟩

/-- Witness for C7 at the logged-in, not-yet-deployed state. -/
theorem C7_witness :
    readContract wConn = { wConn with log := wConn.log ++ ["Contract not deployed yet"] } ∧
    writeContract wConn = { wConn with log := wConn.log ++ ["Contract not deployed yet"] } :=
  C7_read_write_noop wConn rfl

/-- C8: with a provider connected, a failing deployment is caught: the
component state and the chain are exactly as before the call (in
particular the stored contract reference), and the only effect is the
catch-block log, a single diagnostic with the insufficient-funds hint
when applicable. -/
theorem C8_deploy_error (w : World) (p : Provider) (msg : String)
    (hp : w.app.provider = some p) :
    (deployContract (DeployOutcome.err msg) w).app = w.app ∧
    (deployContract (DeployOutcome.err msg) w).chain = w.chain ∧
    (deployContract (DeployOutcome.err msg) w).log = w.log ++ deployErrLog msg := by
  obtain ⟨⟨wa, pr, ct, m, nm⟩, ch, lg⟩ := w
  have hp' : pr = some p := hp
  subst hp'
  exact ⟨rfl, rfl, rfl⟩

/-- Witness for C8 at the logged-in state with an insufficient-funds
failure. -/
theorem C8_witness :
    (deployContract (DeployOutcome.err "insufficient funds") wConn).app = wConn.app ∧
    (deployContract (DeployOutcome.err "insufficient funds") wConn).chain = wConn.chain ∧
    (deployContract (DeployOutcome.err "insufficient funds") wConn).log =
      wConn.log ++ deployErrLog "insufficient funds" :=
  C8_deploy_error wConn ⟨7⟩ "insufficient funds" rfl

/-- C9: with the session present, getUserInfo logs the profile data and
leaves the whole component state (all five fields) and the chain
unchanged. -/
theorem C9_userInfo_frame (w : World) (s : Session) (u : String)
    (hs : w.app.web3auth = some s) :
    (getUserInfo u w).app = w.app ∧
    (getUserInfo u w).chain = w.chain ∧
    (getUserInfo u w).log = w.log ++ [u] := by
  obtain ⟨⟨wa, pr, ct, m, nm⟩, ch, lg⟩ := w
  have hs' : wa = some s := hs
  subst hs'
  exact ⟨rfl, rfl, rfl⟩

/-- Witness for C9 at the state right after init. -/
theorem C9_witness :
    (getUserInfo "user profile" wPre).app = wPre.app ∧
    (getUserInfo "user profile" wPre).chain = wPre.chain ∧
    (getUserInfo "user profile" wPre).log = wPre.log ++ ["user profile"] :=
  C9_userInfo_frame wPre s0 "user profile" rfl

/-- C10: logout touches only the provider field: session, contract,
message, newMessage and the chain survive, so after a logout that
follows a deploy the stale contract is still there and readContract and
writeContract still pass their guards and operate on it. -/
theorem C10_logout_frame (w : World) (s : Session) (c : Nat)
    (hs : w.app.web3auth = some s) (hc : w.app.contract = some c) :
    (logout w).app.provider = none ∧
    (logout w).app.contract = some c ∧
    (logout w).app.message = w.app.message ∧
    (logout w).app.newMessage = w.app.newMessage ∧
    (logout w).app.web3auth = some s ∧
    (logout w).chain = w.chain ∧
    (readContract (logout w)).app.message = chainGet w.chain c ∧
    (writeContract (logout w)).chain.storage = (c, w.app.newMessage) :: w.chain.storage ∧
    (writeContract (logout w)).log = w.log ++ ["Message updated"] := by
  obtain ⟨⟨wa, pr, ct, m, nm⟩, ch, lg⟩ := w
  have hs' : wa = some s := hs
  have hc' : ct = some c := hc
  subst hs'
  subst hc'
  exact ⟨rfl, rfl, rfl, rfl, rfl, rfl, rfl, rfl, rfl⟩

/-- Witness for C10 at the deployed state. -/
theorem C10_witness :
    (logout wFull).app.provider = none ∧
    (logout wFull).app.contract = some 0 ∧
    (logout wFull).app.message = wFull.app.message ∧
    (logout wFull).app.newMessage = wFull.app.newMessage ∧
    (logout wFull).app.web3auth = some s0 ∧
    (logout wFull).chain = wFull.chain ∧
    (readContract (logout wFull)).app.message = chainGet wFull.chain 0 ∧
    (writeContract (logout wFull)).chain.storage = (0, wFull.app.newMessage) :: wFull.chain.storage ∧
    (writeContract (logout wFull)).log = wFull.log ++ ["Message updated"] :=
  C10_logout_frame wFull s0 0 rfl rfl

end Web3AuthApp
